import Mathlib

/-!
Shallow embedding of `src/zl30733_id.c` (ZL3073x identity reader over SPI).

Bytes are modelled as `Nat`; the SPI bus (`ioctl(fd, SPI_IOC_MESSAGE(1), &xfer)`)
is modelled as a function from a transaction to the ioctl return value (number
of bytes transferred, or negative on error) together with the contents the
driver deposits in the receive buffer.  Each embedded function additionally
returns the list of bus transactions it issued, so that "no bus transaction
occurs" is expressible.
-/

/-- `EINVAL` errno constant (22 on Linux). -/
def EINVAL : Int := 22

/-- `ENOMEM` errno constant (12 on Linux). -/
def ENOMEM : Int := 12

/-- `ZL_PAGE_SEL`: the page-select control register offset `0x7F`. -/
def ZL_PAGE_SEL : Nat := 0x7F

/-- One SPI transfer as handed to the ioctl: the transmit buffer contents,
whether a receive buffer was supplied (`rx_buf != 0`), and the byte length. -/
structure Transaction where
  txBuf : List Nat
  hasRx : Bool
  len : Nat
deriving DecidableEq, Repr

/-- A bus: responds to one transaction with the ioctl return value and the
bytes the driver places into the receive buffer. -/
def Bus := Transaction → Int × List Nat

/-- Environment for the embedded functions: the bus behind the fd, and whether
`calloc` fails (models scratch-allocation failure in `spi_read`). -/
structure Env where
  bus : Bus
  allocFail : Bool

/-- The transaction `spi_write_u8` issues: `tx = {reg_off, val}`, no rx buffer,
length 2. -/
def writeXfer (reg_off val : Nat) : Transaction :=
  ⟨[reg_off, val], false, 2⟩

/-- The transaction `spi_read` issues: `tx[0] = reg_off` followed by `len`
zero bytes (calloc-zeroed), with an rx buffer, length `len + 1`. -/
def readXfer (reg_off len : Nat) : Transaction :=
  ⟨reg_off :: List.replicate len 0, true, len + 1⟩

/-- `spi_write_u8` from the source: sends `{reg_off, val}` in one 2-byte
transfer and returns `-1` when the ioctl reports fewer than 1 byte
transferred, else `0`.  Also returns the transactions issued. -/
def spi_write_u8 (bus : Bus) (reg_off val : Nat) : Int × List Transaction :=
  let xfer := writeXfer reg_off val
  if (bus xfer).1 < 1 then (-1, [xfer]) else (0, [xfer])

/-- `spi_read` from the source: validates `len`, allocates scratch buffers,
issues one `len+1`-byte transfer (address byte plus `len` don't-care bytes),
and on success copies received bytes `1..len` (discarding the echoed address
byte 0) into the caller's buffer.  Returns `(result, final caller buffer,
transactions issued)`.  The receive scratch buffer is calloc-zeroed, so bytes
the driver does not fill read as 0. -/
def spi_read (env : Env) (reg_off : Nat) (buf : List Nat) (len : Nat) :
    Int × List Nat × List Transaction :=
  if len = 0 ∨ len > 255 then (-EINVAL, buf, [])
  else if env.allocFail then (-ENOMEM, buf, [])
  else
    let xfer := readXfer reg_off len
    if (env.bus xfer).1 < 1 then (-1, buf, [xfer])
    else
      let rxFull := ((env.bus xfer).2 ++ List.replicate (len + 1) 0).take (len + 1)
      (0, rxFull.drop 1 ++ buf.drop len, [xfer])

/-- `zl_set_page` from the source: rejects `page > 0x0F` with `-EINVAL`
before touching the bus, else writes `page & 0x0F` to `ZL_PAGE_SEL`. -/
def zl_set_page (bus : Bus) (page : Nat) : Int × List Transaction :=
  if page > 0x0F then (-EINVAL, [])
  else spi_write_u8 bus ZL_PAGE_SEL (page &&& 0x0F)

/-- The page computed by `zl_read_reg`: `(reg >> 7) & 0x0F`. -/
def zl_page (reg : Nat) : Nat := (reg >>> 7) &&& 0x0F

/-- The in-page offset computed by `zl_read_reg`: `reg & 0x7F`. -/
def zl_off (reg : Nat) : Nat := reg &&& 0x7F

/-- `zl_read_reg` from the source: splits the 16-bit logical address into
`page = (reg >> 7) & 0xF` and `off = reg & 0x7F`, selects the page, then
reads.  Returns `(result, final caller buffer, transactions issued)`. -/
def zl_read_reg (env : Env) (reg : Nat) (buf : List Nat) (len : Nat) :
    Int × List Nat × List Transaction :=
  let w := zl_set_page env.bus (zl_page reg)
  if w.1 ≠ 0 then (w.1, buf, w.2)
  else
    let r := spi_read env (zl_off reg) buf len
    (r.1, r.2.1, w.2 ++ r.2.2)

/-- Big-endian reassembly of a byte list, as performed by `memcpy` into a
network-order integer. -/
def be_bytes (bytes : List Nat) : Nat :=
  bytes.foldl (fun acc b => acc * 256 + b) 0

/-- `ntohs` applied to the first two buffer bytes: a `uint16_t` value. -/
def ntohs (bytes : List Nat) : Nat :=
  be_bytes (bytes.take 2) % 2 ^ 16

/-- `ntohl` applied to the first four buffer bytes: a `uint32_t` value. -/
def ntohl (bytes : List Nat) : Nat :=
  be_bytes (bytes.take 4) % 2 ^ 32

/-- The decode arm of the `ZL_READ_REG` macro: length 1 passes `_b[0]`
through, length 2 is `ntohs`, length 4 is `ntohl`, anything else falls to the
`errx` "unsupported LEN" branch (`none`). -/
def zl_decode (len : Nat) (b : List Nat) : Option Nat :=
  if len = 1 then some (b.getD 0 0)
  else if len = 2 then some (ntohs b)
  else if len = 4 then some (ntohl b)
  else none

/-- Outcome of one expansion of the `ZL_READ_REG` macro: the three `errx`
exits (len > sizeof(_b); zl_read_reg failed; unsupported width) or a decoded
value. -/
inductive RegResult where
  | fatalLenTooBig
  | fatalReadFailed
  | fatalUnsupported
  | ok (v : Nat)
deriving DecidableEq, Repr

/-- The `ZL_READ_REG` macro from the source: checks `_len > sizeof(_b)`
(8-byte stack buffer), calls `zl_read_reg`, aborts on a negative result,
then dispatches the decode on `_len ∈ {1,2,4}`.  Also returns the
transactions issued. -/
def ZL_READ_REG (env : Env) (reg : Nat) (len : Nat) : RegResult × List Transaction :=
  if len > 8 then (.fatalLenTooBig, [])
  else
    let r := zl_read_reg env reg (List.replicate 8 0) len
    if r.1 < 0 then (.fatalReadFailed, r.2.2)
    else
      match zl_decode len r.2.1 with
      | some v => (.ok v, r.2.2)
      | none => (.fatalUnsupported, r.2.2)

/-- `known_ids` table from the source. -/
def known_ids : List (Nat × String) :=
  [(0x0E95, "ZL3073x (A)"), (0x1E95, "ZL3073x (B)"), (0x2E95, "ZL3073x (C)")]

/-- The linear scan inside `lookup_name`. -/
def lookup_in : List (Nat × String) → Nat → String
  | [], _ => "Unknown"
  | e :: rest, id => if e.1 = id then e.2 else lookup_in rest id

/-- `lookup_name` from the source: linear scan of `known_ids`, exact equality,
falling back to "Unknown". -/
def lookup_name (id : Nat) : String :=
  lookup_in known_ids id

/-- The identity record `main` assembles: chip ID, revision, firmware
version, custom config version. -/
structure Identity where
  chip_id : Nat
  revision : Nat
  fw_ver : Nat
  cfg_ver : Nat
deriving DecidableEq, Repr

/-- The probe sequence of `main`: the four `ZL_READ_REG` invocations at the
`ZL_REG_*` addresses; any fatal `errx` aborts the probe (`none`). -/
def probe (env : Env) : Option Identity :=
  match (ZL_READ_REG env 0x0001 2).1 with
  | .ok chip =>
    match (ZL_READ_REG env 0x0003 2).1 with
    | .ok rev =>
      match (ZL_READ_REG env 0x0005 2).1 with
      | .ok fw =>
        match (ZL_READ_REG env 0x0007 4).1 with
        | .ok cfg => some ⟨chip, rev, fw, cfg⟩
        | _ => none
      | _ => none
    | _ => none
  | _ => none

/-- The major revision nibble printed by `main`: `(revision >> 4) & 0xF`. -/
def rev_major (revision : Nat) : Nat := (revision >>> 4) &&& 0xF

/-- The minor revision nibble printed by `main`: `revision & 0xF`. -/
def rev_minor (revision : Nat) : Nat := revision &&& 0xF

/-- A bus that always transfers every requested byte and returns zero bytes. -/
def goodBus : Bus := fun t => (Int.ofNat t.len, List.replicate t.len 0)

/-- Stub bus of the end-to-end test: page-select writes succeed; reads at
offsets 1/3/5/7 return the identity bytes after the echoed address byte. -/
def stubBus : Bus := fun t =>
  if t.hasRx = false then (Int.ofNat t.len, [])
  else
    match t.txBuf.headD 0 with
    | 1 => (Int.ofNat t.len, [0, 0x0E, 0x95])
    | 3 => (Int.ofNat t.len, [0, 0x00, 0x10])
    | 5 => (Int.ofNat t.len, [0, 0x00, 0x02])
    | 7 => (Int.ofNat t.len, [0, 0x00, 0x00, 0x00, 0x01])
    | _ => (-1, [])

/-- A bus whose read transactions report only 1 byte transferred (fewer than
the `len + 1` requested) while writes transfer fully. -/
def shortReadBus : Bus := fun t =>
  if t.hasRx then (1, [0, 0xAA, 0xBB]) else (Int.ofNat t.len, [])

/-- A bus that reports 1 byte transferred on every transaction. -/
def oneByteBus : Bus := fun _ => (1, [])

/-- A bus that reports 0 bytes transferred on every transaction. -/
def zeroBus : Bus := fun _ => (0, [])

/-- C1 counterexample: a read transaction reporting 1 byte transferred —
fewer than the 3 bytes requested for a 2-byte read — makes `spi_read`
return 0 (success), not a negative `BusError`; likewise a 2-byte page-select
write reporting only 1 byte transferred makes `spi_write_u8` return 0. -/
theorem short_transfer_is_not_bus_error :
    (shortReadBus (readXfer 1 2)).1 = 1 ∧ (readXfer 1 2).len = 3 ∧
    (spi_read ⟨shortReadBus, false⟩ 1 [0, 0] 2).1 = 0 ∧
    (oneByteBus (writeXfer ZL_PAGE_SEL 0)).1 = 1 ∧
    (writeXfer ZL_PAGE_SEL 0).len = 2 ∧
    (spi_write_u8 oneByteBus ZL_PAGE_SEL 0).1 = 0 := by
  decide

/-- C1 (amended): `spi_read` returns the bus error `-1` exactly when the bus
reports fewer than one byte transferred (`ioctl` return < 1), and returns
success (0) whenever at least one byte is reported — even if fewer than the
`len + 1` bytes requested; `zl_set_page`'s single-byte write likewise fails
exactly when its transaction reports fewer than one byte.  When the first
register read fails, the probe aborts and produces no identity report. -/
theorem bus_error_propagation (env : Env) (off p : Nat) (buf : List Nat)
    (len : Nat) (h0 : len ≠ 0) (h255 : len ≤ 255) (ha : env.allocFail = false)
    (hp : p ≤ 15) :
    ((spi_read env off buf len).1 = -1 ↔ (env.bus (readXfer off len)).1 < 1) ∧
    (1 ≤ (env.bus (readXfer off len)).1 → (spi_read env off buf len).1 = 0) ∧
    ((zl_set_page env.bus p).1 = -1 ↔
      (env.bus (writeXfer ZL_PAGE_SEL (p &&& 0x0F))).1 < 1) ∧
    (1 ≤ (env.bus (writeXfer ZL_PAGE_SEL (p &&& 0x0F))).1 →
      (zl_set_page env.bus p).1 = 0) ∧
    ((zl_read_reg env 0x0001 (List.replicate 8 0) 2).1 < 0 →
      probe env = none) := by
  have hr : (spi_read env off buf len).1 =
      if (env.bus (readXfer off len)).1 < 1 then -1 else 0 := by
    simp only [spi_read, ha]
    rw [if_neg (by omega)]
    simp only [Bool.false_eq_true, if_false]
    split_ifs <;> rfl
  have hw : (zl_set_page env.bus p).1 =
      if (env.bus (writeXfer ZL_PAGE_SEL (p &&& 0x0F))).1 < 1 then -1 else 0 := by
    simp only [zl_set_page, spi_write_u8]
    rw [if_neg (by omega : ¬ p > 0x0F)]
    split_ifs <;> rfl
  refine ⟨?_, ?_, ?_, ?_, ?_⟩
  · rw [hr]
    split_ifs with hb
    · exact ⟨fun _ => hb, fun _ => rfl⟩
    · exact ⟨fun he => absurd he (by decide), fun hc => absurd hc hb⟩
  · intro hge
    rw [hr, if_neg (by omega)]
  · rw [hw]
    split_ifs with hb
    · exact ⟨fun _ => hb, fun _ => rfl⟩
    · exact ⟨fun he => absurd he (by decide), fun hc => absurd hc hb⟩
  · intro hge
    rw [hw, if_neg (by omega)]
  · intro hfail
    have h2 : (ZL_READ_REG env 0x0001 2).1 = RegResult.fatalReadFailed := by
      simp only [ZL_READ_REG]
      rw [if_neg (by omega : ¬ (2 : Nat) > 8), if_pos hfail]
    simp only [probe, h2]

/-- Witness for `bus_error_propagation` at a bus that transfers 0 bytes. -/
theorem bus_error_propagation_witness :
    ((spi_read ⟨zeroBus, false⟩ 1 [] 2).1 = -1 ↔ (zeroBus (readXfer 1 2)).1 < 1) ∧
    (1 ≤ (zeroBus (readXfer 1 2)).1 → (spi_read ⟨zeroBus, false⟩ 1 [] 2).1 = 0) ∧
    ((zl_set_page zeroBus 0).1 = -1 ↔
      (zeroBus (writeXfer ZL_PAGE_SEL (0 &&& 0x0F))).1 < 1) ∧
    (1 ≤ (zeroBus (writeXfer ZL_PAGE_SEL (0 &&& 0x0F))).1 →
      (zl_set_page zeroBus 0).1 = 0) ∧
    ((zl_read_reg ⟨zeroBus, false⟩ 0x0001 (List.replicate 8 0) 2).1 < 0 →
      probe ⟨zeroBus, false⟩ = none) :=
  bus_error_propagation ⟨zeroBus, false⟩ 1 0 [] 2 (by decide) (by decide) rfl
    (by decide)

/-- C2 counterexample: `zl_read_reg` with length 0 does return `-EINVAL`,
but a page-select bus write has already been issued — the transaction trace
is not empty, contradicting "no page-select write occurs". -/
theorem invalid_len_still_selects_page :
    (zl_read_reg ⟨goodBus, false⟩ 0x0001 [] 0).1 = -EINVAL ∧
    (zl_read_reg ⟨goodBus, false⟩ 0x0001 [] 0).2.2 =
      [writeXfer ZL_PAGE_SEL 0] := by
  decide

/-- C2 (amended): for length 0 or length > 255, `zl_read_reg` returns
`-EINVAL` (when the page-select write succeeds) and issues no read transfer —
but the page-select write is issued first, so exactly one bus transaction
(the page-select write) occurs. -/
theorem invalid_len_no_read_transfer (env : Env) (reg : Nat) (buf : List Nat)
    (len : Nat) (hlen : len = 0 ∨ len > 255)
    (hw : 1 ≤ (env.bus (writeXfer ZL_PAGE_SEL (zl_page reg &&& 0x0F))).1) :
    (zl_read_reg env reg buf len).1 = -EINVAL ∧
    (zl_read_reg env reg buf len).2.2 =
      [writeXfer ZL_PAGE_SEL (zl_page reg &&& 0x0F)] := by
  have hpage : zl_page reg ≤ 15 := Nat.and_le_right
  simp only [zl_read_reg, zl_set_page, spi_write_u8]
  rw [if_neg (by omega : ¬ zl_page reg > 0x0F), if_neg (by omega : ¬ (env.bus (writeXfer ZL_PAGE_SEL (zl_page reg &&& 0x0F))).1 < 1)]
  simp only [spi_read]
  rw [if_pos (by omega : len = 0 ∨ len > 255)]
  simp

/-- Witness for `invalid_len_no_read_transfer` at length 256. -/
theorem invalid_len_no_read_transfer_witness :
    (zl_read_reg ⟨goodBus, false⟩ 0x0003 [] 256).1 = -EINVAL ∧
    (zl_read_reg ⟨goodBus, false⟩ 0x0003 [] 256).2.2 =
      [writeXfer ZL_PAGE_SEL 0] :=
  invalid_len_no_read_transfer ⟨goodBus, false⟩ 0x0003 [] 256
    (Or.inr (by decide)) (by decide)

/-- C3: for every logical address up to 0x7FF, the decode performed by
`zl_read_reg` satisfies `page = addr >> 7`, `offset = addr & 0x7F`, and
`page * 128 + offset = addr`. -/
theorem address_decode_roundtrip (addr : Nat) (h : addr ≤ 0x7FF) :
    zl_page addr = addr >>> 7 ∧ zl_off addr = addr &&& 0x7F ∧
    zl_page addr * 128 + zl_off addr = addr := by
  have h1 : addr &&& 0x7F = addr % 128 := Nat.and_pow_two_sub_one_eq_mod addr 7
  have h2 : (addr >>> 7) &&& 0x0F = (addr >>> 7) % 16 :=
    Nat.and_pow_two_sub_one_eq_mod (addr >>> 7) 4
  have h3 : addr >>> 7 = addr / 128 := Nat.shiftRight_eq_div_pow addr 7
  unfold zl_page zl_off
  rw [h1, h2, h3]
  omega

/-- Witness for `address_decode_roundtrip` at the revision register 0x0003. -/
theorem address_decode_roundtrip_witness :
    zl_page 0x0295 = 0x0295 >>> 7 ∧ zl_off 0x0295 = 0x0295 &&& 0x7F ∧
    zl_page 0x0295 * 128 + zl_off 0x0295 = 0x0295 :=
  address_decode_roundtrip 0x0295 (by decide)

/-- C4: the big-endian field decoder returns `hi*256 + lo` for a 2-byte
input, `b0*2^24 + b1*2^16 + b2*2^8 + b3` for a 4-byte input, and passes a
1-byte input through unchanged. -/
theorem zl_decode_big_endian (hi lo b0 b1 b2 b3 x : Nat)
    (hhi : hi < 256) (hlo : lo < 256) (h0 : b0 < 256) (h1 : b1 < 256)
    (h2 : b2 < 256) (h3 : b3 < 256) :
    zl_decode 2 [hi, lo] = some (hi * 256 + lo) ∧
    zl_decode 4 [b0, b1, b2, b3] =
      some (b0 * 2 ^ 24 + b1 * 2 ^ 16 + b2 * 2 ^ 8 + b3) ∧
    zl_decode 1 [x] = some x := by
  refine ⟨?_, ?_, rfl⟩
  · simp only [zl_decode, ntohs, be_bytes, List.take, List.foldl]
    norm_num
    omega
  · simp only [zl_decode, ntohl, be_bytes, List.take, List.foldl]
    norm_num
    omega

/-- Witness for `zl_decode_big_endian` at the chip-ID bytes. -/
theorem zl_decode_big_endian_witness :
    zl_decode 2 [0x0E, 0x95] = some 0x0E95 ∧
    zl_decode 4 [0, 0, 0, 1] = some 1 ∧
    zl_decode 1 [7] = some 7 :=
  zl_decode_big_endian 0x0E 0x95 0 0 0 1 7 (by decide) (by decide) (by decide)
    (by decide) (by decide) (by decide)

/-- C5 counterexample: at decode length 9 (not one of 1/2/4) the macro
aborts with the "read len 9 > 8" buffer-size error, not the
"unsupported LEN (only 8,16,32 bits)" error. -/
theorem decode_len_nine_not_unsupported :
    (ZL_READ_REG ⟨goodBus, false⟩ 0x0001 9).1 = RegResult.fatalLenTooBig ∧
    (ZL_READ_REG ⟨goodBus, false⟩ 0x0001 9).1 ≠ RegResult.fatalUnsupported := by
  decide

/-- C5 (amended): for any decode length other than 1, 2 or 4 the macro never
produces a decoded value; a length above the 8-byte scratch buffer aborts
with the buffer-size error, and a length ≤ 8 whose register read succeeds
aborts with the unsupported-width error. -/
theorem decode_width_contract (env : Env) (reg len : Nat)
    (h1 : len ≠ 1) (h2 : len ≠ 2) (h4 : len ≠ 4) :
    (∀ v, (ZL_READ_REG env reg len).1 ≠ RegResult.ok v) ∧
    (8 < len → (ZL_READ_REG env reg len).1 = RegResult.fatalLenTooBig) ∧
    (len ≤ 8 → 0 ≤ (zl_read_reg env reg (List.replicate 8 0) len).1 →
      (ZL_READ_REG env reg len).1 = RegResult.fatalUnsupported) := by
  have hd : ∀ b, zl_decode len b = none := fun b => by
    simp [zl_decode, h1, h2, h4]
  by_cases h8 : 8 < len
  · refine ⟨?_, fun _ => ?_, fun hle _ => absurd h8 (by omega)⟩
    · intro v
      simp only [ZL_READ_REG]
      rw [if_pos h8]
      simp
    · simp only [ZL_READ_REG]
      rw [if_pos h8]
  · by_cases hneg : (zl_read_reg env reg (List.replicate 8 0) len).1 < 0
    · refine ⟨?_, fun hgt => absurd hgt h8, fun _ hok => absurd hneg (by omega)⟩
      intro v
      simp only [ZL_READ_REG]
      rw [if_neg h8, if_pos hneg]
      simp
    · refine ⟨?_, fun hgt => absurd hgt h8, fun _ _ => ?_⟩
      · intro v
        simp only [ZL_READ_REG]
        rw [if_neg h8, if_neg hneg, hd]
        simp
      · simp only [ZL_READ_REG]
        rw [if_neg h8, if_neg hneg, hd]

/-- Witness for `decode_width_contract` at length 3 on a healthy bus. -/
theorem decode_width_contract_witness :
    (ZL_READ_REG ⟨goodBus, false⟩ 0x0001 3).1 = RegResult.fatalUnsupported :=
  (decode_width_contract ⟨goodBus, false⟩ 0x0001 3 (by decide) (by decide)
    (by decide)).2.2 (by decide) (by decide)

/-- C6: `zl_set_page` rejects any page above 15 with `-EINVAL` and an empty
transaction trace (no bus transaction), and for a page in [0,15] it issues
exactly the single-byte write of the page (masked to 4 bits) to the
page-select register 0x7F. -/
theorem zl_set_page_contract (bus : Bus) (p : Nat) :
    (15 < p → zl_set_page bus p = (-EINVAL, [])) ∧
    (p ≤ 15 → (zl_set_page bus p).2 = [writeXfer ZL_PAGE_SEL (p &&& 0x0F)]) := by
  constructor
  · intro h
    unfold zl_set_page
    rw [if_pos h]
  · intro h
    simp only [zl_set_page, spi_write_u8]
    rw [if_neg (by omega : ¬ p > 0x0F)]
    split_ifs <;> rfl

/-- Witness for `zl_set_page_contract` at pages 16 and 3. -/
theorem zl_set_page_contract_witness :
    zl_set_page goodBus 16 = (-EINVAL, []) ∧
    (zl_set_page goodBus 3).2 = [writeXfer ZL_PAGE_SEL 3] :=
  ⟨(zl_set_page_contract goodBus 16).1 (by decide),
   (zl_set_page_contract goodBus 3).2 (by decide)⟩

/-- C7: the chip-ID lookup is exact-match over the three listed IDs, and
every other ID yields "Unknown". -/
theorem lookup_name_exact (id : Nat) :
    lookup_name id =
      if id = 0x0E95 then "ZL3073x (A)"
      else if id = 0x1E95 then "ZL3073x (B)"
      else if id = 0x2E95 then "ZL3073x (C)"
      else "Unknown" := by
  simp only [lookup_name, lookup_in, known_ids]
  split_ifs <;> first | rfl | omega

/-- C8: against the stub bus of the end-to-end test, the probe produces chip
ID 0x0E95 named "ZL3073x (A)", revision 0x0010 with major 1 and minor 0,
firmware version 0x0002, and custom config version 0x00000001. -/
theorem probe_end_to_end :
    probe ⟨stubBus, false⟩ = some ⟨0x0E95, 0x0010, 0x0002, 0x00000001⟩ ∧
    lookup_name 0x0E95 = "ZL3073x (A)" ∧
    rev_major 0x0010 = 1 ∧ rev_minor 0x0010 = 0 := by
  decide

/-- C9: `zl_read_reg` behaves identically (same result, same buffer, same
transactions) at `reg` and at `reg % 0x800` — the page is masked to 4 bits,
so addresses 0x800..0xFFFF alias into [0, 0x7FF] — and the computed page is
always ≤ 15, so `zl_set_page`'s `-EINVAL` branch is unreachable from
`zl_read_reg`. -/
theorem zl_read_reg_page_alias (env : Env) (reg : Nat) (buf : List Nat)
    (len : Nat) :
    zl_read_reg env reg buf len = zl_read_reg env (reg % 0x800) buf len ∧
    zl_page reg ≤ 15 ∧
    (zl_set_page env.bus (zl_page reg)).1 ≠ -EINVAL := by
  have hm1 : ∀ x : Nat, x &&& 0x7F = x % 128 := fun x =>
    Nat.and_pow_two_sub_one_eq_mod x 7
  have hm2 : ∀ x : Nat, x &&& 0x0F = x % 16 := fun x =>
    Nat.and_pow_two_sub_one_eq_mod x 4
  have hs : ∀ x : Nat, x >>> 7 = x / 128 := fun x =>
    Nat.shiftRight_eq_div_pow x 7
  have hpage : zl_page (reg % 0x800) = zl_page reg := by
    unfold zl_page
    rw [hm2, hm2, hs, hs]
    omega
  have hoff : zl_off (reg % 0x800) = zl_off reg := by
    unfold zl_off
    rw [hm1, hm1]
    omega
  have hle : zl_page reg ≤ 15 := Nat.and_le_right
  refine ⟨?_, hle, ?_⟩
  · unfold zl_read_reg
    rw [hpage, hoff]
  · simp only [zl_set_page, spi_write_u8]
    rw [if_neg (by omega : ¬ zl_page reg > 0x0F)]
    split_ifs <;> norm_num [EINVAL]

/-- C10: whenever `spi_read` returns an error (any nonzero result: invalid
length, allocation failure, or bus failure), the caller's buffer is returned
unchanged; the received payload is written only on success. -/
theorem spi_read_error_keeps_buf (env : Env) (off : Nat) (buf : List Nat)
    (len : Nat) (h : (spi_read env off buf len).1 ≠ 0) :
    (spi_read env off buf len).2.1 = buf := by
  simp only [spi_read] at *
  split_ifs at * <;> simp_all

/-- Witness for `spi_read_error_keeps_buf` under allocation failure. -/
theorem spi_read_error_keeps_buf_witness :
    (spi_read ⟨goodBus, true⟩ 1 [9, 9] 2).2.1 = [9, 9] :=
  spi_read_error_keeps_buf ⟨goodBus, true⟩ 1 [9, 9] 2 (by decide)
